import Mathlib

/-!
Verification of the PollenPal core: a shallow embedding of the Advisor
(`pollenpal/core/health.py`), the Extractor
(`pollenpal/core/tracker.py`, `parse_html_response`), and the CLI's
detail-string consumer (`pollenpal/cli/main.py`,
`display_detailed_analysis`), with theorems settling the specified
properties of each.
-/

namespace PollenPal

/-! ## Python string helpers -/

/-- `str.title()` on ASCII text: an alphabetic character is upper-cased when
the previous character was not alphabetic, lower-cased otherwise. -/
def pyTitleGo : List Char → Bool → List Char
  | [], _ => []
  | c :: cs, prevCased =>
    (if c.isAlpha then (if prevCased then c.toLower else c.toUpper) else c)
      :: pyTitleGo cs c.isAlpha

/-- Python `str.title()` (ASCII). -/
def pyTitle (s : String) : String := ⟨pyTitleGo s.toList false⟩

/-- Python `str.lower()` (ASCII): lower-case every character. -/
def pyLower (s : String) : String := ⟨s.data.map Char.toLower⟩

/-- Python `str.strip()`: drop leading and trailing whitespace. -/
def pyStrip (s : String) : String :=
  ⟨((s.data.dropWhile Char.isWhitespace).reverse.dropWhile Char.isWhitespace).reverse⟩

/-- Python `str.split(sep)` for a one-character separator. -/
def pySplitChar (c : Char) (s : String) : List String :=
  (s.data.splitOn c).map List.asString

/-- Python `", ".join(l)`. -/
def commaJoin (l : List String) : String :=
  ⟨List.intercalate [',', ' '] (l.map String.data)⟩

/-! ## Advisor data model

The Python `get_health_advice` receives a loosely-typed dictionary.  We
embed the part of that dictionary the function reads: `current_day` is a
dict (here an association list in insertion order, or `none` when the key
is absent / the value is `None`), each of whose values is a category dict
carrying an optional `"level"` string. -/

/-- A category dictionary as read by the Advisor: `category.get("level", "")`. -/
structure PyCat where
  level : Option String
deriving Repr, DecidableEq

/-- The `current_day` dictionary: keys to category dicts, insertion order. -/
abbrev PyDict := List (String × PyCat)

/-- The Advisor's input record: the `current_day` entry of the data dict
(`none` when absent or `None`; `some []` is the empty, falsy dict). -/
structure PyData where
  current_day : Option PyDict
deriving Repr, DecidableEq

/-- The Advisor's output dictionary. -/
structure AdviceReport where
  advice : List String
  alert_level : String
  high_levels : List String
  moderate_levels : List String
deriving Repr, DecidableEq

/-- The early-exit report returned when no data is available
(`health.py` lines 23-29). -/
def unknownReport : AdviceReport :=
  { advice := ["Unable to provide advice - no data available"]
    alert_level := "unknown"
    high_levels := []
    moderate_levels := [] }

/-- `current.get(name, {}).get("level", "").lower()` (`health.py` line 42). -/
def catLevel (cur : PyDict) (name : String) : String :=
  pyLower (((cur.lookup name).getD ⟨none⟩).level.getD "")

/-- The classification loop of `health.py` lines 37-46: fold over the three
fixed categories, appending to `high_levels` on `"high"`/`"very high"` and
to `moderate_levels` on `"moderate"`. -/
def classifyLoop (cur : PyDict) : List String × List String :=
  ["grass", "trees", "weeds"].foldl
    (fun acc name =>
      let level := catLevel cur name
      if level = "high" ∨ level = "very high" then (acc.1 ++ [name], acc.2)
      else if level = "moderate" then (acc.1, acc.2 ++ [name])
      else acc)
    ([], [])

/-- The four general tips appended last regardless of tier
(`health.py` lines 75-82). -/
def generalTips : List String :=
  ["Check forecast daily", "Shower after being outdoors",
   "Dry clothes indoors", "Use HEPA air filters"]

/-- The four fixed high-tier tips (`health.py` lines 54-61). -/
def highTips : List String :=
  ["Stay indoors during peak hours (5-10 AM and dusk)",
   "Keep windows closed", "Consider antihistamines",
   "Wear wraparound sunglasses outdoors"]

/-- The two fixed moderate-tier tips (`health.py` lines 67-69). -/
def moderateTips : List String :=
  ["Monitor symptoms closely", "Consider limiting outdoor activities"]

/-- The two fixed low-tier lines (`health.py` lines 71-72). -/
def lowLines : List String :=
  ["GOOD NEWS: All pollen levels are currently low",
   "Generally safe for outdoor activities"]

/-- `get_health_advice` (`health.py` lines 11-89).  The input is `none` for
`advise(None)`; `some d` for a dict `d` whose `current_day` entry is
`d.current_day`.  Empty-dict falsiness of `data.get("current_day")` is the
`some []` case. -/
def get_health_advice (data : Option PyData) : AdviceReport :=
  match data with
  | none => unknownReport
  | some d =>
    match d.current_day with
    | none => unknownReport
    | some cur =>
      if cur.isEmpty then unknownReport
      else
        let hm := classifyLoop cur
        let high_levels := hm.1
        let moderate_levels := hm.2
        let alert_level :=
          if high_levels ≠ [] then "high"
          else if moderate_levels ≠ [] then "moderate"
          else "low"
        let advice :=
          (if high_levels ≠ [] then
            ("HIGH ALERT: " ++ pyTitle (commaJoin high_levels)
              ++ " pollen levels are high") :: highTips
          else if moderate_levels ≠ [] then
            ("MODERATE: " ++ pyTitle (commaJoin moderate_levels)
              ++ " pollen levels are moderate") :: moderateTips
          else lowLines)
          ++ generalTips
        { advice := advice
          alert_level := alert_level
          high_levels := high_levels
          moderate_levels := moderate_levels }

/-- Convenience constructor: a record whose `current_day` holds the three
categories with the given level strings. -/
def mkRecord (g t w : String) : Option PyData :=
  some ⟨some [("grass", ⟨some g⟩), ("trees", ⟨some t⟩), ("weeds", ⟨some w⟩)]⟩

/-! ## Advisor lemmas -/

/-- Categories classified as high by the loop, as a filter. -/
def highOf (cur : PyDict) : List String :=
  ["grass", "trees", "weeds"].filter
    (fun n => catLevel cur n = "high" ∨ catLevel cur n = "very high")

/-- Categories classified as moderate by the loop, as a filter. -/
def moderateOf (cur : PyDict) : List String :=
  ["grass", "trees", "weeds"].filter (fun n => catLevel cur n = "moderate")

/-- A concrete non-empty `current_day`: grass High, trees Moderate, weeds Low. -/
def curHM : PyDict :=
  [("grass", ⟨some "High"⟩), ("trees", ⟨some "Moderate"⟩), ("weeds", ⟨some "Low"⟩)]

/-! ## Extractor data model

`parse_html_response` (`tracker.py` lines 88-170) queries the parsed markup
only through BeautifulSoup's find / find_all / attribute-get interface, so we
embed the markup as a tree of elements: tag name, string attributes, the
multi-valued `class` attribute, the element's `.text`, and children.
`find`/`find_all` search the descendants in document (pre-)order. -/

/-- An element of the parsed markup tree. -/
inductive HNode : Type where
  | mk : String → List (String × String) → List String → String → List HNode → HNode

/-- Tag name. -/
def HNode.tag : HNode → String
  | .mk t _ _ _ _ => t

/-- String-valued attributes (everything except `class`). -/
def HNode.attrs : HNode → List (String × String)
  | .mk _ a _ _ _ => a

/-- The multi-valued `class` attribute (`elem.get("class", [])`). -/
def HNode.classes : HNode → List String
  | .mk _ _ c _ _ => c

/-- The element's `.text`. -/
def HNode.text : HNode → String
  | .mk _ _ _ x _ => x

/-- Child elements, in document order. -/
def HNode.children : HNode → List HNode
  | .mk _ _ _ _ ch => ch

/-- `elem.get(key, default)` for a string attribute. -/
def HNode.getAttrD (n : HNode) (key dflt : String) : String :=
  ((n.attrs.lookup key).getD dflt)

/-- Membership test on the `class` list. -/
def HNode.hasClass (n : HNode) (c : String) : Bool :=
  n.classes.contains c

mutual

/-- All elements of a subtree, in document (pre-)order. -/
def allNodes : HNode → List HNode
  | .mk t a c x ch => .mk t a c x ch :: allNodesList ch

/-- All elements of a forest, in document (pre-)order. -/
def allNodesList : List HNode → List HNode
  | [] => []
  | n :: ns => allNodes n ++ allNodesList ns

end

/-- A document: the forest of top-level elements. -/
abbrev HDoc := List HNode

/-- `soup.find_all(...)`: every matching element in document order. -/
def findAll (doc : HDoc) (p : HNode → Bool) : List HNode :=
  (allNodesList doc).filter p

/-- `soup.find(...)`: the first matching element, if any. -/
def findFirst (doc : HDoc) (p : HNode → Bool) : Option HNode :=
  (findAll doc p).head?

/-- `elem.find(...)`: the first matching descendant, if any. -/
def HNode.findDesc (n : HNode) (p : HNode → Bool) : Option HNode :=
  ((allNodesList n.children).filter p).head?

/-- `input` with `id="cityName"` (`tracker.py` line 108). -/
def isCityInput (n : HNode) : Bool :=
  n.tag == "input" && n.getAttrD "id" "" == "cityName"

/-- `input` with class `pollen-lat` (`tracker.py` line 113). -/
def isLatInput (n : HNode) : Bool :=
  n.tag == "input" && n.hasClass "pollen-lat"

/-- `input` with class `pollen-lng` (`tracker.py` line 114). -/
def isLngInput (n : HNode) : Bool :=
  n.tag == "input" && n.hasClass "pollen-lng"

/-- `button` with class `day-link` (`tracker.py` line 122). -/
def isDayButton (n : HNode) : Bool :=
  n.tag == "button" && n.hasClass "day-link"

/-- `span` with class `day-name` (`tracker.py` line 126). -/
def isDayName (n : HNode) : Bool :=
  n.tag == "span" && n.hasClass "day-name"

/-- `span` with class `day-number` (`tracker.py` line 131). -/
def isDayNumber (n : HNode) : Bool :=
  n.tag == "span" && n.hasClass "day-number"

/-- `li` with class `diagram-container` (`tracker.py` line 158). -/
def isDiagram (n : HNode) : Bool :=
  n.tag == "li" && n.hasClass "diagram-container"

/-- `p` with class `level-text` (`tracker.py` line 162). -/
def isLevelText (n : HNode) : Bool :=
  n.tag == "p" && n.hasClass "level-text"

/-- `p` with class `ppm-level` (`tracker.py` line 163). -/
def isPpmLevel (n : HNode) : Bool :=
  n.tag == "p" && n.hasClass "ppm-level"

/-- The stripped text of the first matching descendant, default empty
(the `button.find(span).text.strip() if ... else ""` idiom). -/
def textOfDesc (n : HNode) (p : HNode → Bool) : String :=
  match n.findDesc p with
  | some m => pyStrip m.text
  | none => ""

/-! ## Extractor result model -/

/-- The `coordinates` sub-dictionary. -/
structure Coordinates where
  latitude : String
  longitude : String
deriving Repr, DecidableEq

/-- One pollen category of a day entry: level, count, detail strings. -/
structure CategoryLevel where
  level : String
  count : String
  detail : String
deriving Repr, DecidableEq, Inhabited

/-- One day's forecast entry. -/
structure DayEntry where
  day_name : String
  day_number : String
  grass : CategoryLevel
  trees : CategoryLevel
  weeds : CategoryLevel
deriving Repr, DecidableEq, Inhabited

/-- One `detailed_breakdown` value. -/
structure BreakdownEntry where
  level : String
  ppm : String
deriving Repr, DecidableEq

/-- The structured record returned by `parse_html_response`; `current_day`
is `none` for the initial empty dict. -/
structure PollenRecord where
  location : String
  coordinates : Coordinates
  current_day : Option DayEntry
  forecast : List DayEntry
  detailed_breakdown : List (String × BreakdownEntry)
deriving Repr, DecidableEq

/-- The `day_data` dictionary built for one day button
(`tracker.py` lines 124-150). -/
def mkDayEntry (b : HNode) : DayEntry :=
  { day_name := textOfDesc b isDayName
    day_number := textOfDesc b isDayNumber
    grass := { level := b.getAttrD "data-grass" ""
               count := b.getAttrD "data-grass-count" ""
               detail := b.getAttrD "data-grass-detail" "" }
    trees := { level := b.getAttrD "data-trees" ""
               count := b.getAttrD "data-trees-count" ""
               detail := b.getAttrD "data-tree-detail" "" }
    weeds := { level := b.getAttrD "data-weeds" ""
               count := b.getAttrD "data-weeds-count" ""
               detail := b.getAttrD "data-weed-detail" "" } }

/-- `"active" in button.get("class", [])` (`tracker.py` line 152). -/
def isActive (b : HNode) : Bool :=
  b.classes.contains "active"

/-- The forecast loop (`tracker.py` lines 123-155): accumulate
`(current_day, forecast)` over the day buttons. -/
def forecastLoop (buttons : List HNode) : Option DayEntry × List DayEntry :=
  buttons.foldl
    (fun acc b =>
      let day := mkDayEntry b
      (if isActive b then some day else acc.1, acc.2 ++ [day]))
    (none, [])

/-- Python-dict insertion: overwrite in place when the key exists, else
append. -/
def dictInsert (m : List (String × BreakdownEntry)) (k : String)
    (v : BreakdownEntry) : List (String × BreakdownEntry) :=
  if m.any (fun p => p.1 == k) then
    m.map (fun p => if p.1 == k then (k, v) else p)
  else m ++ [(k, v)]

/-- The detailed-breakdown loop (`tracker.py` lines 159-168). -/
def breakdownLoop (containers : List HNode) : List (String × BreakdownEntry) :=
  containers.foldl
    (fun acc c =>
      let pollen_type := c.getAttrD "data-details" ""
      if pollen_type ≠ "" then
        dictInsert acc pollen_type
          { level := textOfDesc c isLevelText, ppm := textOfDesc c isPpmLevel }
      else acc)
    []

/-- `parse_html_response` (`tracker.py` lines 88-170) over the embedded
markup tree. -/
def parse_html_response (doc : HDoc) : PollenRecord :=
  let location :=
    match findFirst doc isCityInput with
    | some n => n.getAttrD "value" ""
    | none => ""
  let coordinates :=
    match findFirst doc isLatInput, findFirst doc isLngInput with
    | some la, some ln =>
        { latitude := la.getAttrD "value" "", longitude := ln.getAttrD "value" "" }
    | _, _ => ({ latitude := "", longitude := "" } : Coordinates)
  let cf := forecastLoop (findAll doc isDayButton)
  { location := location
    coordinates := coordinates
    current_day := cf.1
    forecast := cf.2
    detailed_breakdown := breakdownLoop (findAll doc isDiagram) }

/-- A concrete sample document with every recognized element. -/
def sampleDoc : HDoc :=
  [ .mk "input" [("id", "cityName"), ("value", "London")] [] "" [],
    .mk "div" [] [] ""
      [ .mk "input" [("value", "51.5")] ["pollen-lat"] "" [],
        .mk "input" [("value", "-0.1")] ["pollen-lng"] "" [] ],
    .mk "button" [("data-grass", "High"), ("data-grass-count", "4")]
      ["day-link", "active"] ""
      [ .mk "span" [] ["day-name"] " Mon " [],
        .mk "span" [] ["day-number"] "1" [] ],
    .mk "button" [("data-grass", "Low")] ["day-link"] "" [],
    .mk "li" [("data-details", "grass")] ["diagram-container"] ""
      [ .mk "p" [] ["level-text"] "High" [],
        .mk "p" [] ["ppm-level"] " 120 " [] ] ]

/-- A document whose only coordinate input is the latitude one. -/
def latOnlyDoc : HDoc :=
  [ .mk "input" [("value", "51.5")] ["pollen-lat"] "" [],
    .mk "div" [] [] "" [] ]

/-- A document with a single element matching none of the recognized
selectors. -/
def unrecognizedDoc : HDoc :=
  [ .mk "div" [("id", "banner"), ("value", "junk")] ["hero"] "welcome"
      [ .mk "span" [] ["headline"] "hi" [] ] ]

/-- A day button marked active, Monday. -/
def btnMon : HNode :=
  .mk "button" [("data-grass", "High")] ["day-link", "active"] ""
    [ .mk "span" [] ["day-name"] "Mon" [] ]

/-- A second day button also marked active, Tuesday. -/
def btnTue : HNode :=
  .mk "button" [("data-grass", "Low")] ["day-link", "active"] ""
    [ .mk "span" [] ["day-name"] "Tue" [] ]

/-- A document in which two day buttons carry the active marker. -/
def twoActiveDoc : HDoc := [btnMon, btnTue]

/-! ## CLI detail-string consumer

`display_detailed_analysis` (`cli/main.py` lines 126-137) parses a
`CategoryLevel.detail` string: split on `|`, then for each piece with a
comma, split on `,`; with at least 3 fields, call `int(ppm)` — which raises
`ValueError` on a non-integer field — and display the entry only when the
parsed value is positive.  We model the retained displayable entries, with
`Except.error` standing for the raised `ValueError`. -/

/-- Accumulate the decimal value of a digit list; `none` on a non-digit. -/
def digitsVal (cs : List Char) : Option Nat :=
  if cs.isEmpty then none
  else
    cs.foldl
      (fun acc c =>
        match acc with
        | none => none
        | some n => if c.isDigit then some (n * 10 + (c.toNat - 48)) else none)
      (some 0)

/-- Python `int(s)` on a decimal literal: surrounding whitespace allowed,
optional sign, then a non-empty digit string; `none` models the raised
`ValueError`.  (Underscore grouping and non-ASCII digits do not occur in
this data and are modelled as errors.) -/
def pyInt (s : String) : Option Int :=
  match (pyStrip s).data with
  | '-' :: rest => (digitsVal rest).map (fun n => -(n : Int))
  | '+' :: rest => (digitsVal rest).map (fun n => (n : Int))
  | cs => (digitsVal cs).map (fun n => (n : Int))

/-- The per-piece loop of `display_detailed_analysis`: the retained
displayable `(name, ppm, level)` entries, or the raised `ValueError`. -/
def displayEntriesGo : List String → Except String (List (String × Int × String))
  | [] => .ok []
  | piece :: rest =>
    if piece.data.contains ',' then
      let parts := pySplitChar ',' piece
      if parts.length ≥ 3 then
        match pyInt (parts.getD 1 "") with
        | none =>
          .error ("invalid literal for int() with base 10: " ++ parts.getD 1 "")
        | some v =>
          if v > 0 then
            (displayEntriesGo rest).map
              (fun l => (parts.getD 0 "", v, parts.getD 2 "") :: l)
          else displayEntriesGo rest
      else displayEntriesGo rest
    else displayEntriesGo rest

/-- The detail-string consumer: split on `|`, then process each piece. -/
def displayEntries (detail : String) :
    Except String (List (String × Int × String)) :=
  displayEntriesGo (pySplitChar '|' detail)

/-! ## Concrete evaluation checks -/

example :
    (get_health_advice (mkRecord "High" "Moderate" "Low")).alert_level = "high" := by decide

example :
    (get_health_advice (mkRecord "High" "Moderate" "Low")).high_levels = ["grass"] ∧
    (get_health_advice (mkRecord "High" "Moderate" "Low")).moderate_levels = ["trees"] ∧
    (get_health_advice (mkRecord "High" "Moderate" "Low")).advice.length = 9 := by decide

example : (get_health_advice (mkRecord "Low" "Low" "Low")).advice.length = 6 := by decide

example : get_health_advice none = unknownReport := by decide

example :
    (get_health_advice (mkRecord "High" "Moderate" "Low")).advice.head? =
      some "HIGH ALERT: Grass pollen levels are high" := by decide

example : (parse_html_response sampleDoc).location = "London" := by decide

example :
    (parse_html_response sampleDoc).coordinates =
      { latitude := "51.5", longitude := "-0.1" } := by decide

example :
    (parse_html_response sampleDoc).current_day =
      some ((parse_html_response sampleDoc).forecast.headI) := by decide

example :
    (parse_html_response sampleDoc).forecast.length = 2 ∧
    (parse_html_response sampleDoc).forecast.headI.day_name = "Mon" ∧
    (parse_html_response sampleDoc).forecast.headI.grass.level = "High" := by decide

example :
    (parse_html_response sampleDoc).detailed_breakdown =
      [("grass", { level := "High", ppm := "120" })] := by decide

example : parse_html_response [] =
    { location := ""
      coordinates := { latitude := "", longitude := "" }
      current_day := none
      forecast := []
      detailed_breakdown := [] } := by decide

example : displayEntries "Timothy,42,Moderate|Rye,0,Low" =
    Except.ok [("Timothy", 42, "Moderate")] := by rfl

example : displayEntries "" = Except.ok [] := by rfl

example : displayEntries "High grass pollen levels" = Except.ok [] := by rfl

lemma classify_go (cur : PyDict) (names : List String) (h m : List String) :
    names.foldl
      (fun acc name =>
        let level := catLevel cur name
        if level = "high" ∨ level = "very high" then (acc.1 ++ [name], acc.2)
        else if level = "moderate" then (acc.1, acc.2 ++ [name])
        else acc)
      (h, m) =
    (h ++ names.filter (fun n => catLevel cur n = "high" ∨ catLevel cur n = "very high"),
     m ++ names.filter (fun n => catLevel cur n = "moderate")) := by
  induction names generalizing h m with
  | nil => simp
  | cons n ns ih =>
    simp only [List.foldl_cons, List.filter_cons]
    by_cases h1 : catLevel cur n = "high" ∨ catLevel cur n = "very high"
    · have h2 : ¬ catLevel cur n = "moderate" := by
        rcases h1 with h1 | h1 <;> rw [h1] <;> decide
      simp [h1, h2, ih]
    · by_cases h2 : catLevel cur n = "moderate"
      · simp [h1, h2, ih]
      · simp [h1, h2, ih]

lemma classifyLoop_eq (cur : PyDict) :
    classifyLoop cur = (highOf cur, moderateOf cur) := by
  simpa [highOf, moderateOf] using classify_go cur ["grass", "trees", "weeds"] [] []

lemma isEmpty_false_of_ne_nil (cur : PyDict) (h : cur ≠ []) : cur.isEmpty = false := by
  cases cur with
  | nil => exact absurd rfl h
  | cons a l => rfl

/-- Full characterization of `get_health_advice` on a non-empty `current_day`. -/
lemma get_health_advice_eq (cur : PyDict) (h : cur ≠ []) :
    get_health_advice (some ⟨some cur⟩) =
      { advice :=
          (if highOf cur ≠ [] then
            ("HIGH ALERT: " ++ pyTitle (commaJoin (highOf cur))
              ++ " pollen levels are high") :: highTips
          else if moderateOf cur ≠ [] then
            ("MODERATE: " ++ pyTitle (commaJoin (moderateOf cur))
              ++ " pollen levels are moderate") :: moderateTips
          else lowLines) ++ generalTips
        alert_level :=
          if highOf cur ≠ [] then "high"
          else if moderateOf cur ≠ [] then "moderate"
          else "low"
        high_levels := highOf cur
        moderate_levels := moderateOf cur } := by
  simp only [get_health_advice, isEmpty_false_of_ne_nil cur h, classifyLoop_eq]
  rfl

/-! ## Advisor claim theorems -/

/-- C1: for every record with non-empty `current_day`, the alert tier is
selected in priority order (high if `high_levels` non-empty, else moderate if
`moderate_levels` non-empty, else low), and `moderate_levels` (and
`high_levels`) are populated from the classification regardless of which tier
won, so moderate categories are still returned when the alert is high. -/
theorem alert_tier_priority (cur : PyDict) (h : cur ≠ []) :
    ((get_health_advice (some ⟨some cur⟩)).alert_level =
      if (get_health_advice (some ⟨some cur⟩)).high_levels ≠ [] then "high"
      else if (get_health_advice (some ⟨some cur⟩)).moderate_levels ≠ [] then "moderate"
      else "low") ∧
    (get_health_advice (some ⟨some cur⟩)).moderate_levels = moderateOf cur ∧
    (get_health_advice (some ⟨some cur⟩)).high_levels = highOf cur := by
  rw [get_health_advice_eq cur h]
  exact ⟨rfl, rfl, rfl⟩

/-- Witness for C1 at a record with both a high and a moderate category. -/
theorem alert_tier_priority_witness :
    curHM ≠ [] ∧
    (((get_health_advice (some ⟨some curHM⟩)).alert_level =
      if (get_health_advice (some ⟨some curHM⟩)).high_levels ≠ [] then "high"
      else if (get_health_advice (some ⟨some curHM⟩)).moderate_levels ≠ [] then "moderate"
      else "low") ∧
    (get_health_advice (some ⟨some curHM⟩)).moderate_levels = moderateOf curHM ∧
    (get_health_advice (some ⟨some curHM⟩)).high_levels = highOf curHM) :=
  ⟨by decide, alert_tier_priority curHM (by decide)⟩

/-- C2: the classification examines exactly grass, trees, weeds in that fixed
order, on the lower-cased level string (default empty): `"high"`/`"very high"`
go to `high_levels`, `"moderate"` to `moderate_levels`, anything else to
neither; the report depends only on the lower-cased levels (so `"HIGH"` and
`"high"` classify identically). -/
theorem category_classification (cur : PyDict) (h : cur ≠ []) :
    (get_health_advice (some ⟨some cur⟩)).high_levels =
      ["grass", "trees", "weeds"].filter
        (fun n => catLevel cur n = "high" ∨ catLevel cur n = "very high") ∧
    (get_health_advice (some ⟨some cur⟩)).moderate_levels =
      ["grass", "trees", "weeds"].filter (fun n => catLevel cur n = "moderate") ∧
    (∀ n : String, ¬ (catLevel cur n = "high" ∨ catLevel cur n = "very high") →
      catLevel cur n ≠ "moderate" →
      n ∉ (get_health_advice (some ⟨some cur⟩)).high_levels ∧
      n ∉ (get_health_advice (some ⟨some cur⟩)).moderate_levels) ∧
    (∀ cur' : PyDict, cur' ≠ [] →
      (∀ n : String, catLevel cur n = catLevel cur' n) →
      get_health_advice (some ⟨some cur⟩) = get_health_advice (some ⟨some cur'⟩)) ∧
    get_health_advice (mkRecord "HIGH" "MODERATE" "Low") =
      get_health_advice (mkRecord "high" "moderate" "low") := by
  refine ⟨by rw [get_health_advice_eq cur h]; rfl,
    by rw [get_health_advice_eq cur h]; rfl, ?_, ?_, by decide⟩
  · intro n hn hm
    rw [get_health_advice_eq cur h]
    constructor
    · simp only [highOf, List.mem_filter]
      rintro ⟨-, hc⟩
      exact hn (by simpa using hc)
    · simp only [moderateOf, List.mem_filter]
      rintro ⟨-, hc⟩
      exact hm (by simpa using hc)
  · intro cur' h' hag
    have hH : highOf cur = highOf cur' := by
      simp only [highOf]
      exact List.filter_congr (by intro a _; simp [hag a])
    have hM : moderateOf cur = moderateOf cur' := by
      simp only [moderateOf]
      exact List.filter_congr (by intro a _; simp [hag a])
    rw [get_health_advice_eq cur h, get_health_advice_eq cur' h', hH, hM]

/-- Witness for C2 at a record with a high and a moderate category. -/
theorem category_classification_witness :
    curHM ≠ [] ∧
    ((get_health_advice (some ⟨some curHM⟩)).high_levels =
      ["grass", "trees", "weeds"].filter
        (fun n => catLevel curHM n = "high" ∨ catLevel curHM n = "very high") ∧
    (get_health_advice (some ⟨some curHM⟩)).moderate_levels =
      ["grass", "trees", "weeds"].filter (fun n => catLevel curHM n = "moderate") ∧
    (∀ n : String, ¬ (catLevel curHM n = "high" ∨ catLevel curHM n = "very high") →
      catLevel curHM n ≠ "moderate" →
      n ∉ (get_health_advice (some ⟨some curHM⟩)).high_levels ∧
      n ∉ (get_health_advice (some ⟨some curHM⟩)).moderate_levels) ∧
    (∀ cur' : PyDict, cur' ≠ [] →
      (∀ n : String, catLevel curHM n = catLevel cur' n) →
      get_health_advice (some ⟨some curHM⟩) = get_health_advice (some ⟨some cur'⟩)) ∧
    get_health_advice (mkRecord "HIGH" "MODERATE" "Low") =
      get_health_advice (mkRecord "high" "moderate" "low")) :=
  ⟨by decide, category_classification curHM (by decide)⟩

/-- C3: the unknown report is returned exactly when the record is absent or
its `current_day` is absent or empty; it has alert level `"unknown"`, the
one-element advice list, and empty level lists. -/
theorem unknown_early_exit (data : Option PyData) :
    (get_health_advice data = unknownReport ↔
      data = none ∨ data = some ⟨none⟩ ∨ data = some ⟨some []⟩) ∧
    unknownReport.alert_level = "unknown" ∧
    unknownReport.advice = ["Unable to provide advice - no data available"] ∧
    unknownReport.high_levels = [] ∧
    unknownReport.moderate_levels = [] := by
  refine ⟨⟨?_, ?_⟩, rfl, rfl, rfl, rfl⟩
  · intro hEq
    rcases data with _ | d
    · exact Or.inl rfl
    rcases d with ⟨cd⟩
    rcases cd with _ | cur
    · exact Or.inr (Or.inl rfl)
    rcases cur with _ | ⟨c, cs⟩
    · exact Or.inr (Or.inr rfl)
    · exfalso
      have hne : (c :: cs : PyDict) ≠ [] := by simp
      rw [get_health_advice_eq _ hne] at hEq
      have halert := congrArg AdviceReport.alert_level hEq
      simp only [unknownReport] at halert
      split_ifs at halert <;> exact absurd halert (by decide)
  · rintro (rfl | rfl | rfl) <;> rfl

/-- C4: for every record with non-empty `current_day`, the advice list is
assembled in fixed order with fixed length per tier (9 for high, 7 for
moderate, 6 for low) and always ends with the four general tips. -/
theorem advice_assembly (cur : PyDict) (h : cur ≠ []) :
    ((get_health_advice (some ⟨some cur⟩)).high_levels ≠ [] →
      (get_health_advice (some ⟨some cur⟩)).advice =
        ("HIGH ALERT: "
            ++ pyTitle (commaJoin (get_health_advice (some ⟨some cur⟩)).high_levels)
            ++ " pollen levels are high") :: highTips ++ generalTips ∧
      (get_health_advice (some ⟨some cur⟩)).advice.length = 9) ∧
    ((get_health_advice (some ⟨some cur⟩)).high_levels = [] →
      (get_health_advice (some ⟨some cur⟩)).moderate_levels ≠ [] →
      (get_health_advice (some ⟨some cur⟩)).advice =
        ("MODERATE: "
            ++ pyTitle (commaJoin (get_health_advice (some ⟨some cur⟩)).moderate_levels)
            ++ " pollen levels are moderate") :: moderateTips ++ generalTips ∧
      (get_health_advice (some ⟨some cur⟩)).advice.length = 7) ∧
    ((get_health_advice (some ⟨some cur⟩)).high_levels = [] →
      (get_health_advice (some ⟨some cur⟩)).moderate_levels = [] →
      (get_health_advice (some ⟨some cur⟩)).advice = lowLines ++ generalTips ∧
      (get_health_advice (some ⟨some cur⟩)).advice.length = 6) ∧
    List.IsSuffix generalTips (get_health_advice (some ⟨some cur⟩)).advice := by
  rw [get_health_advice_eq cur h]
  dsimp only
  refine ⟨?_, ?_, ?_, ⟨_, rfl⟩⟩
  · intro hH
    rw [if_pos hH]
    exact ⟨rfl, by simp [highTips, generalTips]⟩
  · intro hH hM
    rw [if_neg (by simpa using hH), if_pos hM]
    exact ⟨rfl, by simp [moderateTips, generalTips]⟩
  · intro hH hM
    rw [if_neg (by simpa using hH), if_neg (by simpa using hM)]
    exact ⟨rfl, by simp [lowLines, generalTips]⟩

/-- Witness for C4 at a record with a high and a moderate category. -/
theorem advice_assembly_witness :
    curHM ≠ [] ∧
    (((get_health_advice (some ⟨some curHM⟩)).high_levels ≠ [] →
      (get_health_advice (some ⟨some curHM⟩)).advice =
        ("HIGH ALERT: "
            ++ pyTitle (commaJoin (get_health_advice (some ⟨some curHM⟩)).high_levels)
            ++ " pollen levels are high") :: highTips ++ generalTips ∧
      (get_health_advice (some ⟨some curHM⟩)).advice.length = 9) ∧
    ((get_health_advice (some ⟨some curHM⟩)).high_levels = [] →
      (get_health_advice (some ⟨some curHM⟩)).moderate_levels ≠ [] →
      (get_health_advice (some ⟨some curHM⟩)).advice =
        ("MODERATE: "
            ++ pyTitle (commaJoin (get_health_advice (some ⟨some curHM⟩)).moderate_levels)
            ++ " pollen levels are moderate") :: moderateTips ++ generalTips ∧
      (get_health_advice (some ⟨some curHM⟩)).advice.length = 7) ∧
    ((get_health_advice (some ⟨some curHM⟩)).high_levels = [] →
      (get_health_advice (some ⟨some curHM⟩)).moderate_levels = [] →
      (get_health_advice (some ⟨some curHM⟩)).advice = lowLines ++ generalTips ∧
      (get_health_advice (some ⟨some curHM⟩)).advice.length = 6) ∧
    List.IsSuffix generalTips (get_health_advice (some ⟨some curHM⟩)).advice) :=
  ⟨by decide, advice_assembly curHM (by decide)⟩

/-! ## Extractor lemmas -/

lemma forecastLoop_go (bs : List HNode) (cd0 : Option DayEntry) (fc0 : List DayEntry) :
    bs.foldl
      (fun acc b =>
        let day := mkDayEntry b
        (if isActive b then some day else acc.1, acc.2 ++ [day]))
      (cd0, fc0) =
    (((bs.reverse.find? isActive).map mkDayEntry).or cd0,
     fc0 ++ bs.map mkDayEntry) := by
  induction bs generalizing cd0 fc0 with
  | nil => simp
  | cons b bs ih =>
    simp only [List.foldl_cons, List.reverse_cons, List.find?_append, List.map_cons]
    rw [ih]
    rcases hf : bs.reverse.find? isActive with _ | d
    · rcases ha : isActive b <;> simp [List.find?, ha, hf]
    · simp [hf]

/-- The forecast and current-day fields in terms of the day buttons. -/
lemma parse_forecast_spec (doc : HDoc) :
    (parse_html_response doc).forecast = (findAll doc isDayButton).map mkDayEntry ∧
    (parse_html_response doc).current_day =
      ((findAll doc isDayButton).reverse.find? isActive).map mkDayEntry := by
  have h := forecastLoop_go (findAll doc isDayButton) none []
  constructor <;> simp [parse_html_response, forecastLoop, h]

/-- The coordinates default whenever either input is missing. -/
lemma coords_default_of_missing (doc : HDoc)
    (h : findFirst doc isLatInput = none ∨ findFirst doc isLngInput = none) :
    (parse_html_response doc).coordinates = { latitude := "", longitude := "" } := by
  rcases h with h | h
  · rcases hln : findFirst doc isLngInput with _ | ln <;>
      simp [parse_html_response, h, hln]
  · rcases hla : findFirst doc isLatInput with _ | la <;>
      simp [parse_html_response, h, hla]

/-! ## Extractor claim theorems -/

/-- C5: the coordinate pair is set atomically: populated from the two input
elements' value attributes when both are present, both empty when either is
missing. -/
theorem coordinates_atomic (doc : HDoc) :
    (∀ la ln : HNode, findFirst doc isLatInput = some la →
      findFirst doc isLngInput = some ln →
      (parse_html_response doc).coordinates =
        { latitude := la.getAttrD "value" "", longitude := ln.getAttrD "value" "" }) ∧
    (findFirst doc isLatInput = none ∨ findFirst doc isLngInput = none →
      (parse_html_response doc).coordinates = { latitude := "", longitude := "" }) := by
  constructor
  · intro la ln hla hln
    simp [parse_html_response, hla, hln]
  · exact coords_default_of_missing doc

/-- Witness for C5: markup with exactly one coordinate input yields both
coordinates empty. -/
theorem coordinates_atomic_witness :
    findFirst latOnlyDoc isLngInput = none ∧
    (parse_html_response latOnlyDoc).coordinates =
      { latitude := "", longitude := "" } :=
  ⟨rfl, (coordinates_atomic latOnlyDoc).2 (Or.inr rfl)⟩

/-- C6: markup containing none of the recognized elements extracts to the
fully-defaulted record. -/
theorem missing_elements_default (doc : HDoc)
    (h1 : findAll doc isCityInput = [])
    (h2 : findAll doc isLatInput = [])
    (h3 : findAll doc isLngInput = [])
    (h4 : findAll doc isDayButton = [])
    (h5 : findAll doc isDiagram = []) :
    parse_html_response doc =
      { location := ""
        coordinates := { latitude := "", longitude := "" }
        current_day := none
        forecast := []
        detailed_breakdown := [] } := by
  simp [parse_html_response, findFirst, h1, h2, h3, h4, h5, forecastLoop, breakdownLoop]

/-- Witness for C6 on markup with only unrecognized elements. -/
theorem missing_elements_default_witness :
    findAll unrecognizedDoc isCityInput = [] ∧
    findAll unrecognizedDoc isLatInput = [] ∧
    findAll unrecognizedDoc isLngInput = [] ∧
    findAll unrecognizedDoc isDayButton = [] ∧
    findAll unrecognizedDoc isDiagram = [] ∧
    parse_html_response unrecognizedDoc =
      { location := ""
        coordinates := { latitude := "", longitude := "" }
        current_day := none
        forecast := []
        detailed_breakdown := [] } :=
  ⟨rfl, rfl, rfl, rfl, rfl,
    missing_elements_default unrecognizedDoc rfl rfl rfl rfl rfl⟩

/-- C7: extraction is a total function of the document — it is defined on
every markup tree — and each field independently takes its documented
default when its elements are missing. -/
theorem extract_total_defaults (doc : HDoc) :
    (findAll doc isCityInput = [] → (parse_html_response doc).location = "") ∧
    (findAll doc isLatInput = [] ∨ findAll doc isLngInput = [] →
      (parse_html_response doc).coordinates = { latitude := "", longitude := "" }) ∧
    (findAll doc isDayButton = [] →
      (parse_html_response doc).forecast = [] ∧
      (parse_html_response doc).current_day = none) ∧
    (findAll doc isDiagram = [] →
      (parse_html_response doc).detailed_breakdown = []) := by
  refine ⟨?_, ?_, ?_, ?_⟩
  · intro h
    simp [parse_html_response, findFirst, h]
  · intro h
    refine coords_default_of_missing doc ?_
    rcases h with h | h
    · exact Or.inl (by simp [findFirst, h])
    · exact Or.inr (by simp [findFirst, h])
  · intro h
    obtain ⟨hf, hc⟩ := parse_forecast_spec doc
    rw [hf, hc, h]
    exact ⟨rfl, rfl⟩
  · intro h
    simp [parse_html_response, h, breakdownLoop]

/-- Witness for C7: the implications of `extract_total_defaults`
instantiated at markup with only unrecognized elements. -/
theorem extract_total_defaults_witness :
    (parse_html_response unrecognizedDoc).location = "" ∧
    (parse_html_response unrecognizedDoc).coordinates =
      { latitude := "", longitude := "" } ∧
    (parse_html_response unrecognizedDoc).forecast = [] ∧
    (parse_html_response unrecognizedDoc).current_day = none ∧
    (parse_html_response unrecognizedDoc).detailed_breakdown = [] :=
  ⟨(extract_total_defaults unrecognizedDoc).1 rfl,
   (extract_total_defaults unrecognizedDoc).2.1 (Or.inl rfl),
   ((extract_total_defaults unrecognizedDoc).2.2.1 rfl).1,
   ((extract_total_defaults unrecognizedDoc).2.2.1 rfl).2,
   (extract_total_defaults unrecognizedDoc).2.2.2 rfl⟩

/-- C8: the forecast collects one entry per day button in document order,
and `current_day` is the entry of the last-encountered active-marked button
(demonstrated concretely on a document with two active buttons, where the
second one wins and nothing crashes). -/
theorem forecast_order_last_active_wins (doc : HDoc) :
    (parse_html_response doc).forecast = (findAll doc isDayButton).map mkDayEntry ∧
    (parse_html_response doc).current_day =
      ((findAll doc isDayButton).reverse.find? isActive).map mkDayEntry ∧
    (parse_html_response twoActiveDoc).current_day = some (mkDayEntry btnTue) := by
  obtain ⟨hf, hc⟩ := parse_forecast_spec doc
  exact ⟨hf, hc, by decide⟩

/-- C10: a populated `current_day` is always one of the forecast entries. -/
theorem current_day_mem_forecast (doc : HDoc) (e : DayEntry)
    (h : (parse_html_response doc).current_day = some e) :
    e ∈ (parse_html_response doc).forecast := by
  obtain ⟨hf, hc⟩ := parse_forecast_spec doc
  rw [hc] at h
  rw [hf]
  rcases hx : (findAll doc isDayButton).reverse.find? isActive with _ | b
  · rw [hx] at h; simp at h
  · rw [hx] at h
    simp only [Option.map_some'] at h
    have hb : b ∈ (findAll doc isDayButton).reverse := List.mem_of_find?_eq_some hx
    rw [List.mem_reverse] at hb
    cases h
    exact List.mem_map_of_mem _ hb

/-- Witness for C10: on the sample document the populated `current_day`
appears among the forecast entries. -/
theorem current_day_mem_forecast_witness :
    (parse_html_response twoActiveDoc).current_day = some (mkDayEntry btnTue) ∧
    mkDayEntry btnTue ∈ (parse_html_response twoActiveDoc).forecast :=
  ⟨by decide, current_day_mem_forecast twoActiveDoc (mkDayEntry btnTue) (by decide)⟩

/-- C9 counterexample: on a detail string whose ppm field is not an integer
the consumer does not skip the entry and continue — `int(ppm)` raises
`ValueError` (modelled by `Except.error`), contradicting the claim that the
parser skips the entry on parse failure and never raises. -/
theorem detail_parser_raises_counterexample :
    displayEntries "Timothy,abc,Moderate|Rye,5,Low" =
      Except.error "invalid literal for int() with base 10: abc" := by rfl

/-- C9 (amended): the consumer splits on `|` then on `,`, skips pieces
without a comma or with fewer than 3 comma-separated fields, retains only
entries with positive integer ppm, and raises `ValueError` on a non-integer
ppm field (rather than skipping); on `"Timothy,42,Moderate|Rye,0,Low"` the
zero-ppm entry is filtered and exactly one displayable sub-entry remains. -/
theorem detail_parser_amended :
    (∀ piece : String, ∀ rest : List String, piece.data.contains ',' = false →
      displayEntriesGo (piece :: rest) = displayEntriesGo rest) ∧
    (∀ piece : String, ∀ rest : List String, (pySplitChar ',' piece).length < 3 →
      displayEntriesGo (piece :: rest) = displayEntriesGo rest) ∧
    (∀ piece : String, ∀ rest : List String, piece.data.contains ',' = true →
      (pySplitChar ',' piece).length ≥ 3 →
      pyInt ((pySplitChar ',' piece).getD 1 "") = none →
      displayEntriesGo (piece :: rest) =
        Except.error ("invalid literal for int() with base 10: "
          ++ (pySplitChar ',' piece).getD 1 "")) ∧
    displayEntries "Timothy,42,Moderate|Rye,0,Low" =
      Except.ok [("Timothy", 42, "Moderate")] := by
  refine ⟨?_, ?_, ?_, by rfl⟩
  · intro piece rest h
    have h' : ¬ (',' ∈ piece.data) := by simpa using h
    simp [displayEntriesGo, h']
  · intro piece rest h
    have h3 : ¬ (pySplitChar ',' piece).length ≥ 3 := by omega
    by_cases hm : ',' ∈ piece.data
    · simp [displayEntriesGo, hm, h3]
    · simp [displayEntriesGo, hm]
  · intro piece rest hc hlen hint
    have hc' : ',' ∈ piece.data := by simpa using hc
    rw [List.getD_eq_getElem?_getD] at hint
    simp [displayEntriesGo, hc', hlen, hint]

/-- Witness for C9's amended theorem: a comma-free piece is skipped. -/
theorem detail_parser_amended_witness :
    ("Rye".data.contains ',') = false ∧
    displayEntriesGo ["Rye"] = displayEntriesGo [] :=
  ⟨by decide, detail_parser_amended.1 "Rye" [] (by decide)⟩

end PollenPal
